import Mathlib

/-!
Shallow embedding of the renderer-side UI logic of spito-gui: the
authentication modal (login / register / two-factor challenge), the
three-stage new-environment wizard, and the profile page with inline
settings editing.

Event handlers are embedded as pure functions from the component state
and the handler's inputs (input-field values read from refs, the response
of the one awaited network call) to the successor state together with an
explicit record of observable effects: the network calls issued, the
toast notices shown, whether the modal was closed and whether the global
session value was updated.  A `ref.current?.value` read is an
`Option String` (`none` models a null ref, whose `value` is `undefined`);
JavaScript truthiness of such a read is `falsyStr`.
-/

namespace SpitoGui

/-- Identity summary of the logged-in user, as in `UserInfo` of
`lib/interfaces`. -/
structure UserInfo where
  id : Nat
  username : String
deriving DecidableEq, Repr

/-- Toast messages appearing in the source, one constructor per string
literal passed to the toast library. -/
inductive Msg
  | passwordsDoNotMatch
  | registering
  | successfullyRegistered
  | failedToRegister
  | loggingIn
  | successfullyLoggedIn
  | wrongEmailOrPassword
  | failedToLogIn
  | updating
  | settingsSaved
  | failedToSaveSettings
  | avatarUpdated
  | failedToSaveAvatar
  | usernameCantBeEmpty
deriving DecidableEq, Repr

/-- Observable toast events: `toast.loading`, `toast.success`,
`toast.error` and `toast.dismiss`. -/
inductive ToastEvent
  | loading (m : Msg)
  | success (m : Msg)
  | error (m : Msg)
  | dismiss
deriving DecidableEq, Repr

/-- Whether a toast event is a success or failure notice (a loading
toast or a dismiss is neither). -/
def ToastEvent.isNotice : ToastEvent → Bool
  | .success _ => true
  | .error _ => true
  | _ => false

/-- Network operations consumed by the components, one constructor per
helper of `lib/auth` / `lib/user` that performs an HTTP call. -/
inductive NetCall
  | login (email password : String)
  | register (username email password : String)
  | verify2FA (email code : String)
  | updateSettings (username description : String)
  | updateAvatar
  | getUserProfile (userId : Int)
deriving DecidableEq, Repr

/-- JavaScript falsiness of a `ref.current?.value` read: a null ref
(`none`, value `undefined`) and the empty string are falsy, every other
string is truthy. -/
def falsyStr : Option String → Bool
  | none => true
  | some s => s.isEmpty

/-- Empty or consisting only of whitespace. -/
def isBlank (s : String) : Bool := s.toList.all Char.isWhitespace

namespace AuthModal

/-- Component-local state of `AuthModal`: the controlled `email` field
and the two booleans selecting the visible view, plus the collected 2FA
code.  (The username / password / repeat-password fields are uncontrolled
refs and are passed to the handlers as inputs.) -/
structure State where
  email : String
  isUserRegistering : Bool
  isTwoFAEnabled : Bool
  twoFACode : String
deriving DecidableEq, Repr

/-- Observable effects of one auth-modal handler invocation. -/
structure Effects where
  netCalls : List NetCall
  toasts : List ToastEvent
  modalClosed : Bool
  userUpdate : Option UserInfo
deriving DecidableEq, Repr

/-- No effects at all. -/
def Effects.silent : Effects := ⟨[], [], false, Option.none⟩

/-- Embedding of `handleLogin`.  `password` is
`passwordRef.current?.value`; `status` is the awaited result of
`login(email, password)`; `info` is the result of `getUserInfo()` (read
only in the 200 branch, where `if (info) updateUser(info)` runs). -/
def handleLogin (st : State) (password : Option String)
    (status : Nat) (info : Option UserInfo) : State × Effects :=
  if st.email = "" ∨ falsyStr password = true then
    (st, Effects.silent)
  else
    let call := NetCall.login st.email (password.getD "")
    if status = 600 then
      ({ st with isTwoFAEnabled := true },
       ⟨[call], [.loading .loggingIn, .dismiss], false, Option.none⟩)
    else if status = 200 then
      (st, ⟨[call], [.loading .loggingIn, .success .successfullyLoggedIn],
            true, info⟩)
    else if status = 403 then
      (st, ⟨[call], [.loading .loggingIn, .error .wrongEmailOrPassword],
            false, Option.none⟩)
    else
      (st, ⟨[call], [.loading .loggingIn, .error .failedToLogIn],
            false, Option.none⟩)

/-- Embedding of `handleRegister`.  `username`, `password`,
`repeatPassword` are the respective `ref.current?.value` reads; `status`
is the awaited result of `register(username, email, password)`. -/
def handleRegister (st : State) (username password repeatPassword : Option String)
    (status : Nat) : State × Effects :=
  if falsyStr username = true ∨ st.email = "" ∨ falsyStr password = true then
    (st, Effects.silent)
  else if password ≠ repeatPassword then
    (st, ⟨[], [.error .passwordsDoNotMatch], false, Option.none⟩)
  else
    let call := NetCall.register (username.getD "") st.email (password.getD "")
    if status = 201 then
      ({ st with isUserRegistering := false },
       ⟨[call], [.loading .registering, .success .successfullyRegistered],
        false, Option.none⟩)
    else
      (st, ⟨[call], [.loading .registering, .error .failedToRegister],
            false, Option.none⟩)

/-- Embedding of `submit2FA`.  `verifyResult` is the awaited result of
`verify2FA(email || "", twoFACode)` (with `email = ""` the source passes
`""`, which coincides with `st.email`); `info` is the result of
`getUserInfo()`, read only in the success branch. -/
def submit2FA (st : State) (verifyResult : Bool) (info : Option UserInfo) :
    State × Effects :=
  if st.twoFACode.length ≠ 6 then
    (st, Effects.silent)
  else if verifyResult then
    (st, ⟨[NetCall.verify2FA st.email st.twoFACode],
          [.loading .loggingIn, .success .successfullyLoggedIn], true, info⟩)
  else
    (st, ⟨[NetCall.verify2FA st.email st.twoFACode],
          [.loading .loggingIn], false, Option.none⟩)

/-- The three views of the modal. -/
inductive View
  | Login
  | Register
  | TwoFactorChallenge
deriving DecidableEq, Repr

/-- View selection exactly as in the JSX: `isTwoFAEnabled` is checked
first, then `isUserRegistering`. -/
def view (st : State) : View :=
  if st.isTwoFAEnabled then View.TwoFactorChallenge
  else if st.isUserRegistering then View.Register
  else View.Login

/-- Effect of a handler invocation on the global session value: the
session is overwritten exactly when `updateUser` was called. -/
def applyUserUpdate (session : Option UserInfo) (e : Effects) :
    Option UserInfo :=
  match e.userUpdate with
  | some u => some u
  | none => session

end AuthModal

namespace Profile

/-- Fetched profile snapshot, as in `ProfileInterface` (the fields the
handlers read; a profile whose `username` field is missing is modelled
by the falsy `username = ""`). -/
structure ProfileInterface where
  username : String
  description : String
deriving DecidableEq, Repr

/-- Opaque in-memory image blob produced by the avatar crop editor. -/
structure Blob where
  id : Nat
deriving DecidableEq, Repr

/-- Component-local state of `Profile` that the embedded handlers touch:
the route parameter `userId`, the fetched snapshot `userData`, the
settings-edit flag and the pending cropped avatar blob. -/
structure State where
  userId : Int
  userData : Option ProfileInterface
  isUserChangingSettings : Bool
  avatarBlob : Option Blob
deriving DecidableEq, Repr

/-- Observable effects of one profile handler invocation. -/
structure Effects where
  netCalls : List NetCall
  toasts : List ToastEvent
deriving DecidableEq, Repr

/-- No effects at all. -/
def Effects.silent : Effects := ⟨[], []⟩

/-- Embedding of `fetchData`: `data` is the awaited result of
`getUserProfile(+userId)`; `setUserData(data)` runs exactly when
`data.username` is truthy, and no notice is shown either way. -/
def fetchData (st : State) (data : ProfileInterface) : State × Effects :=
  if data.username ≠ "" then
    ({ st with userData := some data }, ⟨[NetCall.getUserProfile st.userId], []⟩)
  else
    (st, ⟨[NetCall.getUserProfile st.userId], []⟩)

/-- Embedding of `handleReactingWithSettings`.  `username` and
`description` are the `ref.current` values (the guard
`usernameRef.current && descriptionRef.current` makes the handler do
nothing when either ref is null); `confirmResult` is the result of the
`confirm(...)` prompt, evaluated only in the unsaved-changes branch. -/
def handleReactingWithSettings (st : State)
    (username description : Option String) (confirmResult : Bool) : State :=
  if st.isUserChangingSettings = false then
    { st with isUserChangingSettings := true }
  else
    match username, description with
    | some u, some d =>
      if some u = st.userData.map (fun p => p.username) ∧
         some d = st.userData.map (fun p => p.description) ∧
         st.avatarBlob = Option.none then
        { st with isUserChangingSettings := false }
      else if confirmResult then
        { st with avatarBlob := Option.none, isUserChangingSettings := false }
      else
        st
    | _, _ => st

/-- Embedding of `handleSaveSettings`.  `username` and `description` are
the `ref.current?.value` reads (the handler does nothing when either ref
is null); `settingsOk` is the awaited result of `updateSettings`,
`avatarOk` the result of the `updateAvatar` call made by
`handleAvatarChange` when a blob is pending, and `refetchResponse` the
result of the `getUserProfile` call made by the `fetchData()` re-fetch
in the success branch.  A comparison such as
`description === userData?.description` is false whenever `userData` is
undefined, hence the `Option`-level equalities. -/
def handleSaveSettings (st : State) (username description : Option String)
    (settingsOk avatarOk : Bool) (refetchResponse : ProfileInterface) :
    State × Effects :=
  match username, description with
  | some username, some description =>
    if username = "" then
      (st, ⟨[], [.error .usernameCantBeEmpty]⟩)
    else if some description = st.userData.map (fun p => p.description) ∧
            some username = st.userData.map (fun p => p.username) ∧
            st.avatarBlob = Option.none then
      ({ st with isUserChangingSettings := false }, ⟨[], []⟩)
    else
      let avatarCalls : List NetCall :=
        match st.avatarBlob with
        | some _ => [NetCall.updateAvatar]
        | none => []
      let avatarToasts : List ToastEvent :=
        match st.avatarBlob with
        | some _ =>
          [if avatarOk then .success .avatarUpdated else .error .failedToSaveAvatar]
        | none => []
      if settingsOk then
        let refetched := fetchData st refetchResponse
        ({ refetched.1 with isUserChangingSettings := false },
         ⟨NetCall.updateSettings username description ::
            avatarCalls ++ refetched.2.netCalls,
          .loading .updating :: .success .settingsSaved :: avatarToasts⟩)
      else
        (st, ⟨NetCall.updateSettings username description :: avatarCalls,
              .loading .updating :: .error .failedToSaveSettings :: avatarToasts⟩)
  | _, _ => (st, ⟨[], []⟩)

end Profile

namespace NewEnviroment

/-- User operations available on the wizard: the three stage-indicator
circles (always rendered, `onClick={() => setStage(n)}`), the Back
button (rendered only when `stage !== 1`), the Next button (rendered
only when `stage !== 3`) and the Create button (rendered exactly when
`stage === 3`, calling the stubbed `formSubmitHandler`). -/
inductive Op
  | indicator1
  | indicator2
  | indicator3
  | back
  | next
  | create
deriving DecidableEq, Repr

/-- Whether an operation's button is rendered at the given stage. -/
def available (stage : Nat) : Op → Bool
  | .back => decide (stage ≠ 1)
  | .next => decide (stage ≠ 3)
  | .create => decide (stage = 3)
  | _ => true

/-- Effect of an operation on the stage: indicator clicks assign
directly, Back runs `setStage((prev) => prev - 1)`, Next runs
`setStage((prev) => prev + 1)`, Create leaves the stage unchanged. -/
def step (stage : Nat) : Op → Nat
  | .indicator1 => 1
  | .indicator2 => 2
  | .indicator3 => 3
  | .back => stage - 1
  | .next => stage + 1
  | .create => stage

/-- Runs a sequence of operations from a stage, refusing (`none`) any
operation whose button is not rendered at the current stage. -/
def run (stage : Nat) : List Op → Option Nat
  | [] => some stage
  | op :: rest =>
    if available stage op then run (step stage op) rest else none

end NewEnviroment

/-! Theorems about the authentication modal. -/

/-- C1 counterexample: with the whitespace-only email `" "` and password
`" "` — both blank in the sense of the specification — `handleLogin`
does issue the `login` network call, because the handler only tests
JavaScript truthiness and a whitespace-only string is truthy. -/
theorem auth_blank_field_login_counterexample :
    isBlank " " = true ∧
    (AuthModal.handleLogin ⟨" ", false, false, ""⟩ (some " ") 200 Option.none).2.netCalls =
      [NetCall.login " " " "] := by
  decide

/-- C1 (amended): whenever the email or password field is empty (or the
ref is absent), `handleLogin` issues no network call, and whenever the
username, email or password field is empty (or the ref is absent),
`handleRegister` issues no network call. -/
theorem auth_empty_field_no_netcall (st : AuthModal.State)
    (username password repeatPassword : Option String)
    (loginStatus registerStatus : Nat) (info : Option UserInfo) :
    ((st.email = "" ∨ falsyStr password = true) →
      (AuthModal.handleLogin st password loginStatus info).2.netCalls = []) ∧
    ((falsyStr username = true ∨ st.email = "" ∨ falsyStr password = true) →
      (AuthModal.handleRegister st username password repeatPassword
        registerStatus).2.netCalls = []) := by
  constructor
  · intro h
    unfold AuthModal.handleLogin
    rw [if_pos h]
    exact rfl
  · intro h
    unfold AuthModal.handleRegister
    rw [if_pos h]
    exact rfl

/-- Witness for C1 (amended) at the empty email. -/
theorem auth_empty_field_no_netcall_witness :
    (AuthModal.handleLogin ⟨"", false, false, ""⟩ (some "p") 200 Option.none).2.netCalls = [] ∧
    (AuthModal.handleRegister ⟨"", false, false, ""⟩ (some "u") (some "p")
      (some "p") 201).2.netCalls = [] := by
  have h := auth_empty_field_no_netcall ⟨"", false, false, ""⟩ (some "u") (some "p")
    (some "p") 200 201 Option.none
  exact ⟨h.1 (Or.inl rfl), h.2 (Or.inr (Or.inl rfl))⟩

/-- C2 counterexample: with an absent username ref and mismatched
passwords, `handleRegister` returns in the empty-field guard, so no
toast at all is shown — in particular not the password-mismatch
notice. -/
theorem register_mismatch_counterexample :
    ((some "a" : Option String) ≠ some "b") ∧
    (AuthModal.handleRegister ⟨"e", false, false, ""⟩ Option.none (some "a")
      (some "b") 201).2.toasts = [] := by
  decide

/-- C2 (amended): with mismatched passwords `handleRegister` never
issues a network call; the password-mismatch notice is shown provided
the username, email and password fields are all non-empty. -/
theorem register_mismatch_no_call (st : AuthModal.State)
    (username password repeatPassword : Option String) (registerStatus : Nat)
    (hne : password ≠ repeatPassword) :
    (AuthModal.handleRegister st username password repeatPassword
      registerStatus).2.netCalls = [] ∧
    (falsyStr username = false → st.email ≠ "" → falsyStr password = false →
      (AuthModal.handleRegister st username password repeatPassword
        registerStatus).2.toasts = [ToastEvent.error Msg.passwordsDoNotMatch]) := by
  by_cases h1 : falsyStr username = true ∨ st.email = "" ∨ falsyStr password = true
  · unfold AuthModal.handleRegister
    rw [if_pos h1]
    refine ⟨rfl, ?_⟩
    intro g1 g2 g3
    rcases h1 with h | h | h
    · rw [g1] at h; cases h
    · exact absurd h g2
    · rw [g3] at h; cases h
  · unfold AuthModal.handleRegister
    rw [if_neg h1, if_pos hne]
    exact ⟨rfl, fun _ _ _ => rfl⟩

/-- Witness for C2 (amended) at non-empty fields with passwords `"a"`
and `"b"`. -/
theorem register_mismatch_no_call_witness :
    (AuthModal.handleRegister ⟨"e", false, false, ""⟩ (some "u") (some "a")
      (some "b") 201).2.netCalls = [] ∧
    (AuthModal.handleRegister ⟨"e", false, false, ""⟩ (some "u") (some "a")
      (some "b") 201).2.toasts = [ToastEvent.error Msg.passwordsDoNotMatch] := by
  have h := register_mismatch_no_call ⟨"e", false, false, ""⟩ (some "u") (some "a")
    (some "b") 201 (by decide)
  exact ⟨h.1, h.2 (by decide) (by decide) (by decide)⟩

/-- C3: when `handleLogin` runs (fields non-empty) and the `login` call
answers 200, the modal is closed and the global session value becomes
the `UserInfo` fetched via `getUserInfo`. -/
theorem login_200_updates_session (st : AuthModal.State) (password : Option String)
    (u : UserInfo) (session : Option UserInfo)
    (he : st.email ≠ "") (hp : falsyStr password = false) :
    (AuthModal.handleLogin st password 200 (some u)).2.modalClosed = true ∧
    AuthModal.applyUserUpdate session
      (AuthModal.handleLogin st password 200 (some u)).2 = some u := by
  unfold AuthModal.handleLogin
  rw [if_neg]
  · simp [AuthModal.applyUserUpdate]
  · rintro (h | h)
    · exact he h
    · rw [hp] at h; cases h

/-- Witness for C3 at a concrete login. -/
theorem login_200_updates_session_witness :
    (AuthModal.handleLogin ⟨"e", false, false, ""⟩ (some "p") 200
      (some ⟨1, "u"⟩)).2.modalClosed = true ∧
    AuthModal.applyUserUpdate Option.none
      (AuthModal.handleLogin ⟨"e", false, false, ""⟩ (some "p") 200
        (some ⟨1, "u"⟩)).2 = some ⟨1, "u"⟩ :=
  login_200_updates_session ⟨"e", false, false, ""⟩ (some "p") ⟨1, "u"⟩ Option.none
    (by decide) (by decide)

/-- C4: when `handleLogin` runs from the Login view (fields non-empty)
and the `login` call answers 600, the view becomes the two-factor
challenge and no success or failure notice is shown (only a loading
toast and its dismissal). -/
theorem login_600_twoFA (st : AuthModal.State) (password : Option String)
    (info : Option UserInfo)
    (hv : AuthModal.view st = AuthModal.View.Login)
    (he : st.email ≠ "") (hp : falsyStr password = false) :
    AuthModal.view (AuthModal.handleLogin st password 600 info).1 =
      AuthModal.View.TwoFactorChallenge ∧
    ∀ t ∈ (AuthModal.handleLogin st password 600 info).2.toasts,
      t.isNotice = false := by
  unfold AuthModal.handleLogin
  rw [if_neg]
  · simp [AuthModal.view, ToastEvent.isNotice]
  · rintro (h | h)
    · exact he h
    · rw [hp] at h; cases h

/-- Witness for C4 at a concrete login from the Login view. -/
theorem login_600_twoFA_witness :
    AuthModal.view (AuthModal.handleLogin ⟨"e", false, false, ""⟩ (some "p") 600
      Option.none).1 = AuthModal.View.TwoFactorChallenge ∧
    ∀ t ∈ (AuthModal.handleLogin ⟨"e", false, false, ""⟩ (some "p") 600
      Option.none).2.toasts, t.isNotice = false :=
  login_600_twoFA ⟨"e", false, false, ""⟩ (some "p") Option.none (by decide)
    (by decide) (by decide)

/-- C5: when `submit2FA` runs with a six-character code and `verify2FA`
answers `false`, the state is unchanged, the modal is not closed, the
session value is unchanged (`updateUser` is not called), and no success
or failure notice is shown. -/
theorem submit2FA_wrong_code (st : AuthModal.State) (info : Option UserInfo)
    (session : Option UserInfo)
    (hlen : st.twoFACode.length = 6) :
    (AuthModal.submit2FA st false info).1 = st ∧
    (AuthModal.submit2FA st false info).2.modalClosed = false ∧
    AuthModal.applyUserUpdate session (AuthModal.submit2FA st false info).2 = session ∧
    ∀ t ∈ (AuthModal.submit2FA st false info).2.toasts, t.isNotice = false := by
  unfold AuthModal.submit2FA
  rw [if_neg (by simp [hlen])]
  simp [AuthModal.applyUserUpdate, ToastEvent.isNotice]

/-- Witness for C5 at the code `"123456"`. -/
theorem submit2FA_wrong_code_witness :
    (AuthModal.submit2FA ⟨"e", false, true, "123456"⟩ false Option.none).1 =
      ⟨"e", false, true, "123456"⟩ ∧
    (AuthModal.submit2FA ⟨"e", false, true, "123456"⟩ false
      Option.none).2.modalClosed = false ∧
    AuthModal.applyUserUpdate Option.none
      (AuthModal.submit2FA ⟨"e", false, true, "123456"⟩ false Option.none).2 =
      Option.none ∧
    ∀ t ∈ (AuthModal.submit2FA ⟨"e", false, true, "123456"⟩ false
      Option.none).2.toasts, t.isNotice = false :=
  submit2FA_wrong_code ⟨"e", false, true, "123456"⟩ Option.none Option.none (by decide)

/-! Theorems about the profile page. -/

/-- C6: when `handleSaveSettings` runs with the edited username equal to
the snapshot username (non-empty, as every stored snapshot is), the
edited description equal to the snapshot description and no pending
avatar blob, it issues no network call, shows no toast, and returns the
page to viewing mode. -/
theorem saveSettings_unchanged_noop (st : Profile.State) (u d : String)
    (sOk aOk : Bool) (rd : Profile.ProfileInterface)
    (hu : st.userData.map (fun p => p.username) = some u)
    (hd : st.userData.map (fun p => p.description) = some d)
    (hb : st.avatarBlob = Option.none)
    (hne : u ≠ "") :
    (Profile.handleSaveSettings st (some u) (some d) sOk aOk rd).2.netCalls = [] ∧
    (Profile.handleSaveSettings st (some u) (some d) sOk aOk rd).2.toasts = [] ∧
    (Profile.handleSaveSettings st (some u) (some d) sOk aOk
      rd).1.isUserChangingSettings = false := by
  unfold Profile.handleSaveSettings
  dsimp only
  rw [if_neg hne, if_pos ⟨hd.symm, hu.symm, hb⟩]
  exact ⟨rfl, rfl, rfl⟩

/-- Witness for C6 at a concrete unchanged snapshot. -/
theorem saveSettings_unchanged_noop_witness :
    (Profile.handleSaveSettings ⟨0, some ⟨"u", "d"⟩, true, Option.none⟩ (some "u")
      (some "d") true true ⟨"u", "d"⟩).2.netCalls = [] ∧
    (Profile.handleSaveSettings ⟨0, some ⟨"u", "d"⟩, true, Option.none⟩ (some "u")
      (some "d") true true ⟨"u", "d"⟩).2.toasts = [] ∧
    (Profile.handleSaveSettings ⟨0, some ⟨"u", "d"⟩, true, Option.none⟩ (some "u")
      (some "d") true true ⟨"u", "d"⟩).1.isUserChangingSettings = false :=
  saveSettings_unchanged_noop ⟨0, some ⟨"u", "d"⟩, true, Option.none⟩ "u" "d"
    true true ⟨"u", "d"⟩ rfl rfl rfl (by decide)

/-- C7: when `handleSaveSettings` runs with an empty edited username, it
shows the empty-username error notice, issues no network call and leaves
the whole state unchanged (hence the page stays in editing mode),
whatever the description, pending blob, or call results. -/
theorem saveSettings_empty_username (st : Profile.State) (d : String)
    (sOk aOk : Bool) (rd : Profile.ProfileInterface) :
    (Profile.handleSaveSettings st (some "") (some d) sOk aOk rd).1 = st ∧
    (Profile.handleSaveSettings st (some "") (some d) sOk aOk rd).2.netCalls = [] ∧
    (Profile.handleSaveSettings st (some "") (some d) sOk aOk rd).2.toasts =
      [ToastEvent.error Msg.usernameCantBeEmpty] := by
  unfold Profile.handleSaveSettings
  dsimp only
  rw [if_pos rfl]
  exact ⟨rfl, rfl, rfl⟩

/-- C8: `fetchData` replaces the stored snapshot with the fetched result
exactly when the result's username field is truthy; on a falsy username
the state is unchanged and in either case no notice is shown. -/
theorem fetchData_replaces_iff_truthy (st : Profile.State)
    (data : Profile.ProfileInterface) :
    (Profile.fetchData st data).1.userData =
      (if data.username ≠ "" then some data else st.userData) ∧
    (data.username = "" → (Profile.fetchData st data).1 = st) ∧
    (Profile.fetchData st data).2.toasts = [] := by
  unfold Profile.fetchData
  by_cases h : data.username ≠ ""
  · rw [if_pos h, if_pos h]
    exact ⟨rfl, fun he => absurd he h, rfl⟩
  · rw [if_neg h, if_neg h]
    exact ⟨rfl, fun _ => rfl, rfl⟩

/-- Witness for C8 at a falsy username. -/
theorem fetchData_replaces_iff_truthy_witness :
    (Profile.fetchData ⟨0, Option.none, false, Option.none⟩ ⟨"", "d"⟩).1.userData =
      (if ("" : String) ≠ "" then some ⟨"", "d"⟩ else Option.none) ∧
    ((("" : String) = "") →
      (Profile.fetchData ⟨0, Option.none, false, Option.none⟩ ⟨"", "d"⟩).1 =
        ⟨0, Option.none, false, Option.none⟩) ∧
    (Profile.fetchData ⟨0, Option.none, false, Option.none⟩ ⟨"", "d"⟩).2.toasts = [] :=
  fetchData_replaces_iff_truthy ⟨0, Option.none, false, Option.none⟩ ⟨"", "d"⟩

/-- C10: when the user is in settings-edit mode with unsaved changes and
confirms the discard prompt, `handleReactingWithSettings` clears the
pending avatar blob and leaves editing mode. -/
theorem discard_clears_blob (st : Profile.State) (u d : String)
    (hedit : st.isUserChangingSettings = true)
    (hch : ¬(some u = st.userData.map (fun p => p.username) ∧
             some d = st.userData.map (fun p => p.description) ∧
             st.avatarBlob = Option.none)) :
    (Profile.handleReactingWithSettings st (some u) (some d) true).avatarBlob =
      Option.none ∧
    (Profile.handleReactingWithSettings st (some u) (some d)
      true).isUserChangingSettings = false := by
  unfold Profile.handleReactingWithSettings
  rw [if_neg (by rw [hedit]; exact fun h => Bool.noConfusion h)]
  dsimp only
  rw [if_neg hch, if_pos rfl]
  exact ⟨rfl, rfl⟩

/-- Witness for C10 at a pending blob with unchanged text fields. -/
theorem discard_clears_blob_witness :
    (Profile.handleReactingWithSettings ⟨0, some ⟨"u", "d"⟩, true, some ⟨0⟩⟩
      (some "u") (some "d") true).avatarBlob = Option.none ∧
    (Profile.handleReactingWithSettings ⟨0, some ⟨"u", "d"⟩, true, some ⟨0⟩⟩
      (some "u") (some "d") true).isUserChangingSettings = false :=
  discard_clears_blob ⟨0, some ⟨"u", "d"⟩, true, some ⟨0⟩⟩ "u" "d" rfl (by decide)

/-! Theorems about the new-environment wizard. -/

/-- Available operations keep a stage within 1..3. -/
theorem wizard_step_bounds (s : Nat) (op : NewEnviroment.Op)
    (h1 : 1 ≤ s) (h3 : s ≤ 3) (ha : NewEnviroment.available s op = true) :
    1 ≤ NewEnviroment.step s op ∧ NewEnviroment.step s op ≤ 3 := by
  cases op <;> simp [NewEnviroment.available, NewEnviroment.step] at * <;> omega

/-- Runs of available operations preserve the stage bounds. -/
theorem wizard_run_inv : ∀ (ops : List NewEnviroment.Op) (s s' : Nat),
    1 ≤ s → s ≤ 3 → NewEnviroment.run s ops = some s' → 1 ≤ s' ∧ s' ≤ 3
  | [], s, s', h1, h3, h => by
    simp only [NewEnviroment.run, Option.some.injEq] at h
    omega
  | op :: rest, s, s', h1, h3, h => by
    simp only [NewEnviroment.run] at h
    by_cases ha : NewEnviroment.available s op = true
    · rw [if_pos ha] at h
      obtain ⟨g1, g3⟩ := wizard_step_bounds s op h1 h3 ha
      exact wizard_run_inv rest _ s' g1 g3 h
    · rw [if_neg ha] at h
      cases h

/-- C9: every sequence of available operations from the initial stage 1
ends in a stage within 1..3; Back is available exactly when the stage
is not 1 and decrements it, Next is available exactly when the stage is
not 3 and increments it, and the indicator clicks set the stage directly
to 1, 2 and 3. -/
theorem wizard_stage_invariant (ops : List NewEnviroment.Op) (s' : Nat)
    (h : NewEnviroment.run 1 ops = some s') :
    (1 ≤ s' ∧ s' ≤ 3) ∧
    (∀ s, NewEnviroment.available s NewEnviroment.Op.back = true ↔ s ≠ 1) ∧
    (∀ s, NewEnviroment.step s NewEnviroment.Op.back = s - 1) ∧
    (∀ s, NewEnviroment.available s NewEnviroment.Op.next = true ↔ s ≠ 3) ∧
    (∀ s, NewEnviroment.step s NewEnviroment.Op.next = s + 1) ∧
    (∀ s, NewEnviroment.step s NewEnviroment.Op.indicator1 = 1 ∧
      NewEnviroment.step s NewEnviroment.Op.indicator2 = 2 ∧
      NewEnviroment.step s NewEnviroment.Op.indicator3 = 3) := by
  refine ⟨wizard_run_inv ops 1 s' (by omega) (by omega) h, ?_, ?_, ?_, ?_, ?_⟩
  · intro s; simp [NewEnviroment.available]
  · intro s; rfl
  · intro s; simp [NewEnviroment.available]
  · intro s; rfl
  · intro s; exact ⟨rfl, rfl, rfl⟩

/-- Witness for C9 on the run Next, Next, Back, click-indicator-3,
Create, which ends at stage 3. -/
theorem wizard_stage_invariant_witness :
    ((1 ≤ 3 ∧ 3 ≤ 3) ∧
    (∀ s, NewEnviroment.available s NewEnviroment.Op.back = true ↔ s ≠ 1) ∧
    (∀ s, NewEnviroment.step s NewEnviroment.Op.back = s - 1) ∧
    (∀ s, NewEnviroment.available s NewEnviroment.Op.next = true ↔ s ≠ 3) ∧
    (∀ s, NewEnviroment.step s NewEnviroment.Op.next = s + 1) ∧
    (∀ s, NewEnviroment.step s NewEnviroment.Op.indicator1 = 1 ∧
      NewEnviroment.step s NewEnviroment.Op.indicator2 = 2 ∧
      NewEnviroment.step s NewEnviroment.Op.indicator3 = 3)) :=
  wizard_stage_invariant [NewEnviroment.Op.next, NewEnviroment.Op.next,
    NewEnviroment.Op.back, NewEnviroment.Op.indicator3, NewEnviroment.Op.create] 3
    (by decide)

end SpitoGui
